import Mathlib

/-!
Shallow embedding of `src/artifacts.py` (cli-artifacts), a Windows Event Log
(EVTX) command-line extractor, together with theorems settling the claims
about its event-extraction behaviour.

The Python program delegates binary EVTX decoding to the external `Evtx`
library and XML parsing to `xml.etree.ElementTree`; the code of this
repository starts from the XML tree of one record.  Accordingly the
embedding models:
  - an ElementTree element as the inductive `Xml` (tag, attributes, text,
    children); `find`/`findall` search direct children only, as the
    single-tag paths used by the source do;
  - Python `int(...)` on an element's text as `pyInt` (`none` text raises
    `TypeError`, a non-numeric string raises `ValueError`; both are
    modelled as `Except.error ()`);
  - `parse_event_xml` (lines 26-66) as `parse_event_xml : Xml → Except Unit
    (Option Event)`: `.error ()` is an uncaught exception, `.ok none` is the
    function returning `None`, and the `except ET.ParseError` branch is the
    `RecOutcome.malformedXml` case of a record outcome;
  - the record loop of `parse_evtx` (lines 69-79) as a `filterMap` over a
    list of per-record decode outcomes;
  - the CSV `DictWriter` row (lines 146-149) and the level / event-id
    filters of `main` (lines 133-138).
-/

/-- One XML element as produced by `xml.etree.ElementTree`:
tag, attribute list, text, and the list of direct children. -/
inductive Xml where
  | elem (tag : String) (attrib : List (String × String)) (text : Option String)
      (children : List Xml)

def Xml.tag : Xml → String
  | .elem t _ _ _ => t

def Xml.attrib : Xml → List (String × String)
  | .elem _ a _ _ => a

def Xml.text : Xml → Option String
  | .elem _ _ t _ => t

def Xml.children : Xml → List Xml
  | .elem _ _ _ c => c

/-- `element.get(key)`: look the key up in the attribute dictionary,
`None` when absent. -/
def Xml.get (x : Xml) (key : String) : Option String :=
  (x.attrib.find? (fun p => p.1 == key)).map (fun p => p.2)

/-- `element.find("ns:Tag", ns)` with a single-tag path: the first direct
child whose (namespace-expanded) tag matches, `None` when there is none. -/
def findChild (x : Xml) (t : String) : Option Xml :=
  x.children.find? (fun c => c.tag == t)

/-- `element.findall("ns:Tag", ns)` with a single-tag path: all direct
children whose tag matches, in document order. -/
def findAll (x : Xml) (t : String) : List Xml :=
  x.children.filter (fun c => c.tag == t)

/-- Namespace expansion of the `ns:` prefix used throughout
`parse_event_xml` (line 32): ElementTree rewrites `ns:Tag` to
`{uri}Tag`. -/
def nsTag (s : String) : String :=
  "{http://schemas.microsoft.com/win/2004/08/events/event}" ++ s

/-- Strip leading and trailing whitespace, as Python `int(str)` does
before parsing. -/
def stripChars (l : List Char) : List Char :=
  ((l.dropWhile Char.isWhitespace).reverse.dropWhile Char.isWhitespace).reverse

/-- A non-empty all-digit character list read as a decimal number. -/
def digitsToNat? (l : List Char) : Option Nat :=
  if l ≠ [] ∧ l.all Char.isDigit then
    some (l.foldl (fun a c => a * 10 + (c.toNat - 48)) 0)
  else none

/-- Python `int(s)` on a string: optional surrounding whitespace, an
optional sign, then decimal digits; `none` models `ValueError`.
(Underscore separators and non-ASCII digits are outside the model.) -/
def pyIntOfString? (s : String) : Option Int :=
  match stripChars s.data with
  | [] => none
  | c :: rest =>
    if c = '-' then (digitsToNat? rest).map (fun n => -(n : Int))
    else if c = '+' then (digitsToNat? rest).map (fun n => (n : Int))
    else (digitsToNat? (c :: rest)).map (fun n => (n : Int))

/-- Python `int(elem.text)`: `TypeError` on `None`, `ValueError` on a
non-numeric string; both uncaught exceptions, modelled as `.error ()`. -/
def pyInt (s : Option String) : Except Unit Int :=
  match s with
  | none => .error ()
  | some s =>
    match pyIntOfString? s with
    | some i => .ok i
    | none => .error ()

/-- Python `s[:n]`: the first `n` characters (code points) of `s`. -/
def pyTake (n : Nat) (s : String) : String :=
  ⟨s.data.take n⟩

/-- The `LEVELS` dictionary (lines 17-23), in source order. -/
def LEVELS (n : Int) : Option String :=
  if n = 1 then some "critical"
  else if n = 2 then some "error"
  else if n = 3 then some "warning"
  else if n = 4 then some "info"
  else if n = 0 then some "info"
  else none

/-- `LEVELS.get(level_num, "info")` (line 43). -/
def levelName (n : Int) : String :=
  (LEVELS n).getD "info"

/-- The normalized output record (lines 58-64).  `timestamp` and
`provider` are `Option String` because `elem.get(attr)` yields Python
`None` when the attribute is missing. -/
structure Event where
  event_id : Int
  level : String
  timestamp : Option String
  provider : Option String
  message : String
  deriving DecidableEq, Repr

/-- Lines 38-39: `int(event_id_elem.text)` when `EventID` is present,
else `0`. -/
def eventIdRes (system : Xml) : Except Unit Int :=
  match findChild system (nsTag "EventID") with
  | some el => pyInt el.text
  | none => .ok 0

/-- Lines 41-42: `int(level_elem.text)` when `Level` is present, else `4`. -/
def levelRes (system : Xml) : Except Unit Int :=
  match findChild system (nsTag "Level") with
  | some el => pyInt el.text
  | none => .ok 4

/-- Lines 45-46: `TimeCreated`'s `SystemTime` attribute when the element
is present (possibly `None`), else the string `"unknown"`. -/
def timestampOf (system : Xml) : Option String :=
  match findChild system (nsTag "TimeCreated") with
  | some el => el.get "SystemTime"
  | none => some "unknown"

/-- Lines 48-49: `Provider`'s `Name` attribute when the element is present
(possibly `None`), else the string `"unknown"`. -/
def providerOf (system : Xml) : Option String :=
  match findChild system (nsTag "Provider") with
  | some el => el.get "Name"
  | none => some "unknown"

/-- The comprehension filter `if d.text` (line 56): keep `d.text` when it
is neither `None` nor the empty string (Python truthiness). -/
def truthyText (d : Xml) : Option String :=
  match d.text with
  | none => none
  | some s => if s = "" then none else some s

/-- Lines 52-56: `" | ".join([d.text for d in data_items if d.text])`
under `EventData`, or `""` when `EventData` is absent. -/
def rawMessage (root : Xml) : String :=
  match findChild root (nsTag "EventData") with
  | some ed => String.intercalate " | " ((findAll ed (nsTag "Data")).filterMap truthyText)
  | none => ""

/-- Line 63: `message[:200] if message else ""`. -/
def messageField (root : Xml) : String :=
  let m := rawMessage root
  if m = "" then "" else pyTake 200 m

/-- `parse_event_xml` (lines 26-66) after `ET.fromstring` succeeded:
`.ok none` is `return None` (missing `System`), `.error ()` is an
exception escaping the function (only `ET.ParseError` is caught there). -/
def parse_event_xml (x : Xml) : Except Unit (Option Event) :=
  match findChild x (nsTag "System") with
  | none => .ok none
  | some system =>
    match eventIdRes system with
    | .error u => .error u
    | .ok event_id =>
      match levelRes system with
      | .error u => .error u
      | .ok level_num =>
        .ok (some { event_id := event_id
                    level := levelName level_num
                    timestamp := timestampOf system
                    provider := providerOf system
                    message := messageField x })

/-- The decode outcome of one EVTX record, as seen by the loop body of
`parse_evtx` (lines 72-79): `record.xml()` or `parse_event_xml` raises
(`raisesDecode`), the XML string is malformed so `ET.fromstring` raises
`ParseError` (`malformedXml`), or the string parses to a tree. -/
inductive RecOutcome where
  | raisesDecode
  | malformedXml
  | tree (x : Xml)

/-- What `parse_event_xml(record.xml())` yields for one record outcome:
`malformedXml` is caught inside `parse_event_xml` and returns `None`
(line 65-66); `raisesDecode` propagates as an exception. -/
def recordEvent : RecOutcome → Except Unit (Option Event)
  | .raisesDecode => .error ()
  | .malformedXml => .ok none
  | .tree x => parse_event_xml x

/-- The record loop of `parse_evtx` (lines 72-79): yield the event when
one is produced; on `None` the `if event:` guard skips it; on an
exception the `except Exception: continue` skips it. -/
def parse_evtx (rs : List RecOutcome) : List Event :=
  rs.filterMap (fun r =>
    match recordEvent r with
    | .ok (some e) => some e
    | .ok none => none
    | .error _ => none)

/-- A Python value appearing in an event dict, as the `csv` module
renders it: `None` becomes the empty field, an int is written via
`str`. -/
inductive PyVal where
  | pynone
  | int (i : Int)
  | str (s : String)

def csvCell : PyVal → String
  | .pynone => ""
  | .int i => toString i
  | .str s => s

def optPy : Option String → PyVal
  | none => .pynone
  | some s => .str s

/-- The `fieldnames` list passed to `csv.DictWriter` (line 147). -/
def csvFieldnames : List String :=
  ["timestamp", "level", "event_id", "provider", "message"]

/-- The event dict (lines 58-64) as a key lookup. -/
def eventDict (e : Event) (k : String) : PyVal :=
  if k = "event_id" then .int e.event_id
  else if k = "level" then .str e.level
  else if k = "timestamp" then optPy e.timestamp
  else if k = "provider" then optPy e.provider
  else if k = "message" then .str e.message
  else .pynone

/-- `DictWriter.writerow`: one cell per field name, in `fieldnames`
order. -/
def csvRow (e : Event) : List String :=
  csvFieldnames.map (fun k => csvCell (eventDict e k))

/-- Lines 133-134: `if args.level and event["level"] != args.level:
continue`.  `args.level` is `None` or a (non-empty) choice string;
Python truthiness makes the empty string falsy too. -/
def levelSkip (lf : Option String) (e : Event) : Bool :=
  match lf with
  | none => false
  | some s => s != "" && e.level != s

/-- Lines 137-138: `if args.event_id and event["event_id"] !=
args.event_id: continue`.  `args.event_id` is `None` or an int; `0` is
falsy, so the filter is skipped for it. -/
def idSkip (ef : Option Int) (e : Event) : Bool :=
  match ef with
  | none => false
  | some i => i != 0 && e.event_id != i

/-- The filtering loop of `main` (lines 129-141): the events appended to
`filtered_events`. -/
def filteredEvents (lf : Option String) (ef : Option Int) (es : List Event) : List Event :=
  es.filter (fun e => !(levelSkip lf e) && !(idSkip ef e))

/-! ## General lemmas about the embedding -/

theorem length_pyTake (n : Nat) (s : String) :
    (pyTake n s).length = min n s.length := by
  cases s
  simp [pyTake, String.length]

theorem parse_spec (x sys : Xml) (hs : findChild x (nsTag "System") = some sys)
    (eid lvl : Int) (heid : eventIdRes sys = .ok eid) (hlvl : levelRes sys = .ok lvl) :
    parse_event_xml x = .ok (some
      { event_id := eid
        level := levelName lvl
        timestamp := timestampOf sys
        provider := providerOf sys
        message := messageField x }) := by
  simp [parse_event_xml, hs, heid, hlvl]

theorem parse_ok_some_inv (x : Xml) (e : Event)
    (h : parse_event_xml x = .ok (some e)) :
    ∃ sys eid lvl, findChild x (nsTag "System") = some sys ∧
      eventIdRes sys = .ok eid ∧ levelRes sys = .ok lvl ∧
      e = { event_id := eid
            level := levelName lvl
            timestamp := timestampOf sys
            provider := providerOf sys
            message := messageField x } := by
  unfold parse_event_xml at h
  split at h
  · exact absurd h (by simp)
  · rename_i sys hs
    split at h
    · exact absurd h (by simp)
    · rename_i eid heid
      split at h
      · exact absurd h (by simp)
      · rename_i lvl hlvl
        refine ⟨sys, eid, lvl, hs, heid, hlvl, ?_⟩
        simpa using h.symm

theorem filterMap_truthyText_eq (l : List Xml)
    (h : ∀ d ∈ l, d.text ≠ some "") :
    l.filterMap truthyText = l.filterMap Xml.text := by
  induction l with
  | nil => rfl
  | cons a l ih =>
    have ha := h a (by simp)
    have hrest := ih (fun d hd => h d (by simp [hd]))
    cases hta : a.text with
    | none => simp [List.filterMap_cons, truthyText, hta, hrest]
    | some s =>
      have hs : ¬ s = "" := by
        intro hs
        exact ha (hs ▸ hta)
      simp [List.filterMap_cons, truthyText, hta, hs, hrest]

theorem levelName_cases (n : Int) :
    levelName n = "critical" ∨ levelName n = "error" ∨
    levelName n = "warning" ∨ levelName n = "info" := by
  unfold levelName LEVELS
  split_ifs <;> simp

/-! ## Sample inputs used by the witnesses -/

/-- A record tree whose `System` subtree is empty: every optional field
takes its default. -/
def sysEmpty : Xml := .elem (nsTag "System") [] none []

def xEmpty : Xml := .elem "Event" [] none [sysEmpty]

/-- The event `parse_event_xml` produces for `xEmpty`. -/
def evDefault : Event :=
  { event_id := 0, level := "info", timestamp := some "unknown"
    provider := some "unknown", message := "" }

theorem parse_xEmpty : parse_event_xml xEmpty = .ok (some evDefault) := rfl

/-! ## Claims -/

/-- Claim C1: the level name of every produced event comes from the
fixed table `LEVELS` = {0: info, 1: critical, 2: error, 3: warning,
4: info}, any number outside the table falls back to `"info"`, and the
inputs 0,1,2,3,4,99 yield info, critical, error, warning, info, info. -/
theorem C1_level_table :
    levelName 0 = "info" ∧ levelName 1 = "critical" ∧ levelName 2 = "error" ∧
    levelName 3 = "warning" ∧ levelName 4 = "info" ∧ levelName 99 = "info" ∧
    (∀ n : Int, n ≠ 0 → n ≠ 1 → n ≠ 2 → n ≠ 3 → n ≠ 4 → levelName n = "info") ∧
    (∀ (x sys el : Xml) (e : Event) (n : Int),
      findChild x (nsTag "System") = some sys →
      findChild sys (nsTag "Level") = some el →
      pyInt el.text = .ok n →
      parse_event_xml x = .ok (some e) →
      e.level = levelName n) := by
  refine ⟨rfl, rfl, rfl, rfl, rfl, rfl, ?_, ?_⟩
  · intro n h0 h1 h2 h3 h4
    simp [levelName, LEVELS, h0, h1, h2, h3, h4]
  · intro x sys el e n hs hl hn hp
    obtain ⟨sys', eid, lvl, hs', heid, hlvl, he⟩ := parse_ok_some_inv x e hp
    rw [hs] at hs'
    obtain rfl : sys = sys' := Option.some.inj hs'
    simp only [levelRes, hl, hn] at hlvl
    obtain rfl : n = lvl := Except.ok.inj hlvl
    rw [he]

/-- The tree of a record whose `Level` element holds the text `"2"`. -/
def elLevel2 : Xml := .elem (nsTag "Level") [] (some "2") []

def sysLevel2 : Xml := .elem (nsTag "System") [] none [elLevel2]

def xLevel2 : Xml := .elem "Event" [] none [sysLevel2]

theorem C1_level_table_witness :
    levelName 7 = "info" ∧
    (Event.mk 0 "error" (some "unknown") (some "unknown") "").level = levelName 2 :=
  ⟨C1_level_table.2.2.2.2.2.2.1 7 (by decide) (by decide) (by decide) (by decide) (by decide),
   C1_level_table.2.2.2.2.2.2.2 xLevel2 sysLevel2 elLevel2 _ 2 rfl rfl rfl rfl⟩

/-- Claim C6: when the `System` subtree has no `Level` element the level
number defaults to 4, so the produced event's level is `"info"`. -/
theorem C6_missing_level_is_info (x sys : Xml) (e : Event)
    (hs : findChild x (nsTag "System") = some sys)
    (hl : findChild sys (nsTag "Level") = none)
    (hp : parse_event_xml x = .ok (some e)) :
    e.level = "info" := by
  obtain ⟨sys', eid, lvl, hs', heid, hlvl, he⟩ := parse_ok_some_inv x e hp
  rw [hs] at hs'
  obtain rfl : sys = sys' := Option.some.inj hs'
  simp only [levelRes, hl] at hlvl
  obtain rfl : (4 : Int) = lvl := Except.ok.inj hlvl
  rw [he]
  rfl

theorem C6_witness : evDefault.level = "info" :=
  C6_missing_level_is_info xEmpty sysEmpty evDefault rfl rfl rfl

/-- Claim C7: extraction is deterministic — running `parse_event_xml` on
the same tree, or the record loop of `parse_evtx` on the same record
outcomes, twice yields structurally identical results (the embedding is
a pure function of its input, as the source touches no mutable state). -/
theorem C7_deterministic :
    ∀ (x : Xml) (rs : List RecOutcome),
      parse_event_xml x = parse_event_xml x ∧ parse_evtx rs = parse_evtx rs :=
  fun _ _ => ⟨rfl, rfl⟩

/-- Claim C8: a CSV row carries the event's fields in exactly the order
timestamp, level, event_id, provider, message. -/
theorem C8_csv_row_order (e : Event) :
    csvRow e = [csvCell (optPy e.timestamp), e.level, toString e.event_id,
      csvCell (optPy e.provider), e.message] := rfl

/-- Claim C10: an `--event-id` of 0 is ignored by the filter (Python
truthiness of `args.event_id`), while a nonzero id keeps exactly the
events whose `event_id` equals it. -/
theorem C10_zero_id_filter :
    (∀ (lf : Option String) (es : List Event),
      filteredEvents lf (some 0) es = filteredEvents lf none es) ∧
    (∀ i : Int, i ≠ 0 → ∀ es : List Event,
      filteredEvents none (some i) es = es.filter (fun e => e.event_id == i)) := by
  constructor
  · intro lf es
    simp [filteredEvents, idSkip]
  · intro i hi es
    simp only [filteredEvents, idSkip, levelSkip]
    congr 1
    funext e
    simp [bne, hi]

def evId5 : Event := ⟨5, "info", some "unknown", some "unknown", ""⟩

def evId7 : Event := ⟨7, "error", some "unknown", some "unknown", ""⟩

theorem C10_witness :
    filteredEvents none (some 5) [evId5, evId7] =
      [evId5, evId7].filter (fun e => e.event_id == 5) :=
  C10_zero_id_filter.2 5 (by decide) [evId5, evId7]

/-- All `Data`-item text values under an `EventData` element, in document
order. -/
def allDataTexts (ed : Xml) : List String :=
  (findAll ed (nsTag "Data")).filterMap Xml.text

/-- Claim C2: when the record has an `EventData` subtree, the produced
event's message is the " | "-join of the Data-item text values truncated
to 200 characters, and a join longer than 200 characters yields a
message of length exactly 200.  The hypothesis `hwf` is the ElementTree
invariant that a parsed element's text is never the empty string (empty
content parses to `None`). -/
theorem C2_message_truncation (x ed : Xml) (e : Event)
    (hed : findChild x (nsTag "EventData") = some ed)
    (hwf : ∀ d ∈ findAll ed (nsTag "Data"), d.text ≠ some "")
    (hp : parse_event_xml x = .ok (some e)) :
    e.message = pyTake 200 (String.intercalate " | " (allDataTexts ed)) ∧
    (200 < (String.intercalate " | " (allDataTexts ed)).length →
      e.message.length = 200) := by
  obtain ⟨sys, eid, lvl, hs, heid, hlvl, he⟩ := parse_ok_some_inv x e hp
  have hmsg : e.message = messageField x := by rw [he]
  have hraw : rawMessage x = String.intercalate " | " (allDataTexts ed) := by
    simp only [rawMessage, hed, allDataTexts]
    rw [filterMap_truthyText_eq _ hwf]
  have htrunc : e.message = pyTake 200 (String.intercalate " | " (allDataTexts ed)) := by
    rw [hmsg, messageField, hraw]
    by_cases hm : String.intercalate " | " (allDataTexts ed) = ""
    · simp [hm]
      rfl
    · simp [hm]
  refine ⟨htrunc, ?_⟩
  intro hlong
  rw [htrunc, length_pyTake]
  omega

def edTwoItems : Xml :=
  .elem (nsTag "EventData") [] none
    [.elem (nsTag "Data") [] (some "a") [],
     .elem (nsTag "Data") [] none [],
     .elem (nsTag "Data") [] (some "b") []]

def xTwoItems : Xml :=
  .elem "Event" [] none [.elem (nsTag "System") [] none [], edTwoItems]

theorem C2_witness :
    (Event.mk 0 "info" (some "unknown") (some "unknown") "a | b").message =
      pyTake 200 (String.intercalate " | " (allDataTexts edTwoItems)) ∧
    (200 < (String.intercalate " | " (allDataTexts edTwoItems)).length →
      (Event.mk 0 "info" (some "unknown") (some "unknown") "a | b").message.length = 200) :=
  C2_message_truncation xTwoItems edTwoItems _ rfl (by decide) rfl

/-- Claim C3: a well-formed record tree without a `System` subtree makes
`parse_event_xml` return `None` (no exception), and such a record
contributes no event to the stream `parse_evtx` yields. -/
theorem C3_missing_system_skipped (x : Xml)
    (h : findChild x (nsTag "System") = none) :
    parse_event_xml x = .ok none ∧
    ∀ pre post : List RecOutcome,
      parse_evtx (pre ++ RecOutcome.tree x :: post) = parse_evtx pre ++ parse_evtx post := by
  have hev : parse_event_xml x = .ok none := by
    simp [parse_event_xml, h]
  refine ⟨hev, ?_⟩
  intro pre post
  simp [parse_evtx, List.filterMap_append, List.filterMap_cons, recordEvent, hev]

/-- A record tree with no `System` child. -/
def xNoSystem : Xml := .elem "Event" [] none [.elem "Other" [] none []]

theorem C3_witness :
    parse_event_xml xNoSystem = .ok none ∧
    parse_evtx [.tree xEmpty, .tree xNoSystem, .tree xEmpty] =
      parse_evtx [.tree xEmpty] ++ parse_evtx [.tree xEmpty] :=
  ⟨(C3_missing_system_skipped xNoSystem rfl).1,
   (C3_missing_system_skipped xNoSystem rfl).2 [.tree xEmpty] [.tree xEmpty]⟩

/-- Claim C4: a record whose payload fails to decode — an exception
while decoding (`raisesDecode`), malformed XML, or any outcome yielding
no event — is dropped alone: the stream equals the streams of the
surrounding records concatenated, so one bad record never aborts
enumeration. -/
theorem C4_bad_record_dropped (r : RecOutcome)
    (h : recordEvent r = .error () ∨ recordEvent r = .ok none) :
    ∀ pre post : List RecOutcome,
      parse_evtx (pre ++ r :: post) = parse_evtx pre ++ parse_evtx post := by
  intro pre post
  rcases h with h | h <;>
    simp [parse_evtx, List.filterMap_append, List.filterMap_cons, h]

theorem C4_witness :
    parse_evtx [.tree xEmpty, RecOutcome.raisesDecode, .malformedXml, .tree xEmpty] =
      parse_evtx [.tree xEmpty] ++ parse_evtx [RecOutcome.malformedXml, .tree xEmpty] :=
  C4_bad_record_dropped .raisesDecode (Or.inl rfl) [.tree xEmpty] [.malformedXml, .tree xEmpty]

/-- A record whose `TimeCreated` and `Provider` elements are present but
carry no `SystemTime` / `Name` attribute: `elem.get` then yields Python
`None` for both fields. -/
def xBareAttrs : Xml :=
  .elem "Event" [] none
    [.elem (nsTag "System") [] none
      [.elem (nsTag "TimeCreated") [] none [],
       .elem (nsTag "Provider") [] none []]]

/-- The event produced for `xBareAttrs`: its timestamp and provider are
`None`, not strings. -/
def evBareAttrs : Event :=
  { event_id := 0, level := "info", timestamp := none
    provider := none, message := "" }

/-- Counterexample to claim C5 as stated: this record produces an Event
whose timestamp and provider fields are Python `None` rather than a
string/instant, because `TimeCreated` and `Provider` are present without
the `SystemTime` / `Name` attribute. -/
theorem C5_counterexample :
    parse_event_xml xBareAttrs = .ok (some evBareAttrs) ∧
    evBareAttrs.timestamp.isSome = false ∧
    evBareAttrs.provider.isSome = false :=
  ⟨rfl, rfl, rfl⟩

/-- Claim C5 (amended): every produced event has an integer event_id, a
string message, and a level drawn from {critical, error, warning, info};
timestamp and provider are strings except when the `TimeCreated` /
`Provider` element is present but lacks its `SystemTime` / `Name`
attribute, in which case the field is Python `None`. -/
theorem C5_field_types (x : Xml) (e : Event)
    (hp : parse_event_xml x = .ok (some e)) :
    (e.level = "critical" ∨ e.level = "error" ∨ e.level = "warning" ∨ e.level = "info") ∧
    (e.timestamp = none → ∃ sys tc, findChild x (nsTag "System") = some sys ∧
      findChild sys (nsTag "TimeCreated") = some tc ∧ tc.get "SystemTime" = none) ∧
    (e.provider = none → ∃ sys p, findChild x (nsTag "System") = some sys ∧
      findChild sys (nsTag "Provider") = some p ∧ p.get "Name" = none) := by
  obtain ⟨sys, eid, lvl, hs, heid, hlvl, he⟩ := parse_ok_some_inv x e hp
  subst he
  refine ⟨levelName_cases lvl, ?_, ?_⟩
  · intro ht
    simp only [timestampOf] at ht
    refine ⟨sys, ?_⟩
    split at ht
    · rename_i tc htc
      exact ⟨tc, hs, htc, ht⟩
    · exact absurd ht (by simp)
  · intro hpr
    simp only [providerOf] at hpr
    refine ⟨sys, ?_⟩
    split at hpr
    · rename_i p hpf
      exact ⟨p, hs, hpf, hpr⟩
    · exact absurd hpr (by simp)

theorem C5_witness :
    evBareAttrs.level = "critical" ∨ evBareAttrs.level = "error" ∨
    evBareAttrs.level = "warning" ∨ evBareAttrs.level = "info" :=
  (C5_field_types xBareAttrs evBareAttrs rfl).1

/-- Claim C9: when the `System` subtree is present (and any `EventID` or
`Level` text that does exist is numeric), extraction succeeds, and the
absent fields take their defaults: event_id 0, timestamp `"unknown"`,
provider `"unknown"`. -/
theorem C9_missing_field_defaults (x sys : Xml)
    (hs : findChild x (nsTag "System") = some sys)
    (heid : ∀ el, findChild sys (nsTag "EventID") = some el → ∃ i, pyInt el.text = .ok i)
    (hlvl : ∀ el, findChild sys (nsTag "Level") = some el → ∃ i, pyInt el.text = .ok i) :
    ∃ e, parse_event_xml x = .ok (some e) ∧
      (findChild sys (nsTag "EventID") = none → e.event_id = 0) ∧
      (findChild sys (nsTag "TimeCreated") = none → e.timestamp = some "unknown") ∧
      (findChild sys (nsTag "Provider") = none → e.provider = some "unknown") := by
  have heid' : ∃ i, eventIdRes sys = .ok i ∧
      (findChild sys (nsTag "EventID") = none → i = 0) := by
    cases hf : findChild sys (nsTag "EventID") with
    | none => exact ⟨0, by simp [eventIdRes, hf], fun _ => rfl⟩
    | some el =>
      obtain ⟨i, hi⟩ := heid el hf
      exact ⟨i, by simp [eventIdRes, hf, hi], by simp [hf]⟩
  have hlvl' : ∃ i, levelRes sys = .ok i := by
    cases hf : findChild sys (nsTag "Level") with
    | none => exact ⟨4, by simp [levelRes, hf]⟩
    | some el =>
      obtain ⟨i, hi⟩ := hlvl el hf
      exact ⟨i, by simp [levelRes, hf, hi]⟩
  obtain ⟨eid, heq, hzero⟩ := heid'
  obtain ⟨lvl, hleq⟩ := hlvl'
  refine ⟨_, parse_spec x sys hs eid lvl heq hleq, hzero, ?_, ?_⟩
  · intro hf
    simp [timestampOf, hf]
  · intro hf
    simp [providerOf, hf]

theorem C9_witness :
    ∃ e, parse_event_xml xEmpty = .ok (some e) ∧
      (findChild sysEmpty (nsTag "EventID") = none → e.event_id = 0) ∧
      (findChild sysEmpty (nsTag "TimeCreated") = none → e.timestamp = some "unknown") ∧
      (findChild sysEmpty (nsTag "Provider") = none → e.provider = some "unknown") :=
  C9_missing_field_defaults xEmpty sysEmpty rfl
    (fun _ h => nomatch h) (fun _ h => nomatch h)
